import Mathlib

/-!
Shallow embedding of `src/native-modules/macos/audio_capture_macos.cc`.

The file models the module's global capture state, the `StartCapture` /
`StopCapture` entry points, and the real-time render callback
`AudioInputCallback`, as pure Lean functions.  Outcomes of CoreAudio and
N-API calls (which are external to the program) are supplied through
explicit environment records, one Boolean or Option field per fallible
call site, so that every control-flow path of the source is reachable in
the model.

Sample conversion is modelled over `ℚ`.  This is exact with respect to
the source's IEEE binary32 arithmetic: each `int16` divided by `32768.0f`
is a dyadic rational with numerator of magnitude at most 2^15, exactly
representable in binary32; the sum of two such values has magnitude at
most 2 with denominator 2^15, again exact; and multiplication by `0.5f`
is an exact halving.  Hence the binary32 computation in the source agrees
with the rational one modelled here, and never produces NaN or infinity.
-/

namespace AudioCapture

/-- CoreAudio's `kAudioDeviceUnknown` constant (value 0). -/
def kAudioDeviceUnknown : Nat := 0

/-- The module's global mutable state (lines 12-15 of the source):
`g_isCapturing`, `g_audioUnit`, `g_targetDeviceID`, `g_tsf`.
Pointer-valued globals are modelled as `Option Nat` (`none` = null). -/
structure CaptureState where
  g_isCapturing : Bool
  g_audioUnit : Option Nat
  g_targetDeviceID : Nat
  g_tsf : Option Nat
deriving Repr, DecidableEq

/-- Module-load state: not capturing, null unit, unknown device, null TSF. -/
def initialState : CaptureState :=
  { g_isCapturing := false, g_audioUnit := none,
    g_targetDeviceID := kAudioDeviceUnknown, g_tsf := none }

/-- An N-API argument value, as far as `StartCapture`'s argument checks
observe it: a string, a function, or anything else. -/
inductive NapiValue
  | str (s : String)
  | func (id : Nat)
  | other
deriving Repr, DecidableEq

/-- `info[i].IsString()`. -/
def NapiValue.isString : NapiValue → Bool
  | .str _ => true
  | _ => false

/-- `info[i].IsFunction()`. -/
def NapiValue.isFunction : NapiValue → Bool
  | .func _ => true
  | _ => false

/-- The argument-validation condition of `StartCapture` (line 340):
`info.Length() < 2 || !info[0].IsString() || !info[1].IsFunction()`. -/
def argsInvalid (args : List NapiValue) : Bool :=
  decide (args.length < 2)
    || !(args.getD 0 NapiValue.other).isString
    || !(args.getD 1 NapiValue.other).isFunction

/-- Result of a `StartCapture` call: success (`return true`), a thrown
`Napi::TypeError`, or a thrown `Napi::Error` with its message. -/
inductive StartResult
  | ok
  | typeError (msg : String)
  | jsError (msg : String)
deriving Repr, DecidableEq

/-- Resource-accounting log for one `StartCapture` call: how many times the
call performed a device lookup, created/disposed an AudioUnit instance,
ran `AudioUnitInitialize`/`AudioUnitUninitialize`, and created/released a
ThreadSafeFunction. -/
structure StartLog where
  deviceLookups : Nat
  unitsCreated : Nat
  unitsDisposed : Nat
  unitsInited : Nat
  unitsUninited : Nat
  tsfCreated : Nat
  tsfReleased : Nat
deriving Repr, DecidableEq

/-- The all-zero log: no hardware or channel operation performed. -/
def emptyStartLog : StartLog :=
  { deviceLookups := 0, unitsCreated := 0, unitsDisposed := 0,
    unitsInited := 0, unitsUninited := 0, tsfCreated := 0, tsfReleased := 0 }

/-- Outcomes of the external CoreAudio / N-API calls made by `StartCapture`,
one field per fallible call site, in source order.
`deviceLookup` models `GetAudioDeviceIDFromUID` (line 360): `some d` means
the helper returned `noErr` after writing device id `d`; `none` means it
failed (leaving the written id at `kAudioDeviceUnknown`).
`disableOutputOk` (line 401) and `verifyFormatOk` (line 445) are warning-only
call sites in the source: their failure is logged and does not change
control flow, so they are carried but unused. -/
structure StartEnv where
  deviceLookup : Option Nat
  componentFound : Bool
  instanceNew : Bool
  enableInput : Bool
  disableOutputOk : Bool
  setDevice : Bool
  setFormat : Bool
  verifyFormatOk : Bool
  setCallback : Bool
  unitInitOk : Bool
  tsfCreate : Bool
  unitStart : Bool
deriving Repr, DecidableEq

/-- The delivery-channel and unit-start steps (lines 494-535) succeed. -/
def StartEnv.deliveryOk (e : StartEnv) : Bool :=
  e.tsfCreate && e.unitStart

/-- The unit-configuration steps (lines 388-492) and everything after
them succeed. -/
def StartEnv.configOk (e : StartEnv) : Bool :=
  e.enableInput && e.setDevice && e.setFormat && e.setCallback
    && e.unitInitOk && e.deliveryOk

/-- All failure-relevant steps of `StartCapture` succeed (the warning-only
sites `disableOutputOk` / `verifyFormatOk` are deliberately excluded, as
their failure does not make `StartCapture` fail). -/
def StartEnv.allOk (e : StartEnv) : Bool :=
  !e.deviceLookup.isNone
    && decide (e.deviceLookup.getD kAudioDeviceUnknown ≠ kAudioDeviceUnknown)
    && e.componentFound && e.instanceNew && e.configOk

/-- Log of a start that failed at or right after device resolution
(lines 361, 376, 381): one lookup, nothing else acquired. -/
def logLookupOnly : StartLog :=
  { deviceLookups := 1, unitsCreated := 0, unitsDisposed := 0,
    unitsInited := 0, unitsUninited := 0, tsfCreated := 0, tsfReleased := 0 }

/-- Log of a start that created the unit and then failed before or at
initialization (lines 393-491): the unit was disposed again. -/
def logUnitDisposed : StartLog :=
  { deviceLookups := 1, unitsCreated := 1, unitsDisposed := 1,
    unitsInited := 0, unitsUninited := 0, tsfCreated := 0, tsfReleased := 0 }

/-- Log of a start that failed creating the ThreadSafeFunction
(lines 505-512): the initialized unit was uninitialized and disposed. -/
def logTsfFailed : StartLog :=
  { deviceLookups := 1, unitsCreated := 1, unitsDisposed := 1,
    unitsInited := 1, unitsUninited := 1, tsfCreated := 0, tsfReleased := 0 }

/-- Log of a start that failed at `AudioOutputUnitStart` (lines 518-528):
the TSF was released and the unit uninitialized and disposed. -/
def logStartFailed : StartLog :=
  { deviceLookups := 1, unitsCreated := 1, unitsDisposed := 1,
    unitsInited := 1, unitsUninited := 1, tsfCreated := 1, tsfReleased := 1 }

/-- Log of a fully successful start: unit created and initialized, TSF
created, nothing released. -/
def logStartOk : StartLog :=
  { deviceLookups := 1, unitsCreated := 1, unitsDisposed := 0,
    unitsInited := 1, unitsUninited := 0, tsfCreated := 1, tsfReleased := 0 }

/-- A `StartCapture` resource log is balanced: everything acquired was
released again. -/
def balancedLog (log : StartLog) : Prop :=
  log.unitsCreated = log.unitsDisposed
  ∧ log.unitsInited = log.unitsUninited
  ∧ log.tsfCreated = log.tsfReleased

/-- A `StartCapture` outcome is a fully rolled-back failure: an error
result, no unit handle, no delivery channel, capturing flag clear, and a
balanced resource log. -/
def startFailed (out : StartResult × CaptureState × StartLog) : Prop :=
  out.1 ≠ StartResult.ok
  ∧ out.2.1.g_audioUnit = none
  ∧ out.2.1.g_tsf = none
  ∧ out.2.1.g_isCapturing = false
  ∧ balancedLog out.2.2

/-- The delivery-channel creation and unit start (lines 494-535), the
final stage of `StartCapture`.  `s` is the state after the unit has been
created and initialized (`g_audioUnit = some 1`). -/
def startDelivery (env : StartEnv) (s : CaptureState) :
    StartResult × CaptureState × StartLog :=
  -- line 495: ThreadSafeFunction::New; on failure (line 505) uninitialize
  -- and dispose the unit, null it
  if !env.tsfCreate then
    (StartResult.jsError "Failed to create ThreadSafeFunction",
      { s with g_audioUnit := none }, logTsfFailed)
  -- line 518: AudioOutputUnitStart; on failure release the TSF,
  -- uninitialize and dispose the unit, null both
  else if !env.unitStart then
    (StartResult.jsError "Failed to start AudioUnit",
      { s with g_audioUnit := none, g_tsf := none }, logStartFailed)
  else
    -- line 514: g_tsf acquired; line 532: g_isCapturing = true; return true
    (StartResult.ok, { s with g_tsf := some 1, g_isCapturing := true },
      logStartOk)

/-- The unit-configuration steps of `StartCapture` (lines 388-492).
`s` is the state after the unit instance was created
(`g_audioUnit = some 1`).  Every failure disposes the unit and nulls it
before returning. -/
def configureUnit (env : StartEnv) (s : CaptureState) :
    StartResult × CaptureState × StartLog :=
  -- line 390: enable input on bus 1
  if !env.enableInput then
    (StartResult.jsError "Failed to enable AudioUnit input",
      { s with g_audioUnit := none }, logUnitDisposed)
  -- line 410: set the target device (the line 401 disable-output failure
  -- is only a logged warning and does not branch)
  else if !env.setDevice then
    (StartResult.jsError "Failed to set current device on AudioUnit",
      { s with g_audioUnit := none }, logUnitDisposed)
  -- line 432: set the stream format
  else if !env.setFormat then
    (StartResult.jsError "Failed to set stream format on AudioUnit",
      { s with g_audioUnit := none }, logUnitDisposed)
  -- line 475: set the input callback (the line 445 format verification
  -- failure is only a logged warning and does not branch)
  else if !env.setCallback then
    (StartResult.jsError "Failed to set input callback on AudioUnit",
      { s with g_audioUnit := none }, logUnitDisposed)
  -- line 486: AudioUnitInitialize; on failure dispose the unit
  else if !env.unitInitOk then
    (StartResult.jsError "Failed to initialize AudioUnit",
      { s with g_audioUnit := none }, logUnitDisposed)
  else
    startDelivery env s

/-- Device resolution and unit creation (lines 357-386).  In every branch
past device resolution, `g_targetDeviceID` holds what
`GetAudioDeviceIDFromUID` (line 360) wrote into the global: the resolved
id on success, `kAudioDeviceUnknown` on lookup failure. -/
def startSession (env : StartEnv) (s : CaptureState) :
    StartResult × CaptureState × StartLog :=
  -- line 361: status != noErr || g_targetDeviceID == kAudioDeviceUnknown
  if env.deviceLookup.isNone
      ∨ env.deviceLookup.getD kAudioDeviceUnknown = kAudioDeviceUnknown then
    (StartResult.jsError "Target audio device not found or error getting ID",
      { s with g_targetDeviceID := env.deviceLookup.getD kAudioDeviceUnknown },
      logLookupOnly)
  -- line 376: AudioComponentFindNext returned null
  else if !env.componentFound then
    (StartResult.jsError "Failed to find HAL Output AudioComponent",
      { s with g_targetDeviceID := env.deviceLookup.getD kAudioDeviceUnknown },
      logLookupOnly)
  -- line 381: AudioComponentInstanceNew; on failure g_audioUnit is nulled
  else if !env.instanceNew then
    (StartResult.jsError "Failed to create AudioUnit instance",
      { s with g_targetDeviceID := env.deviceLookup.getD kAudioDeviceUnknown, g_audioUnit := none },
      logLookupOnly)
  else
    configureUnit env
      { s with g_targetDeviceID := env.deviceLookup.getD kAudioDeviceUnknown, g_audioUnit := some 1 }

/-- `StartCapture` (lines 336-535): the argument and session-state guards
(lines 340-355) followed by the configuration stages `startSession` →
`configureUnit` → `startDelivery`, which together transcribe the
straight-line sequence of early-return error checks of the source.
Returns the call result, the global state after the call, and the
resource log.  Fresh handles are represented by `some 1`. -/
def startCapture (args : List NapiValue) (env : StartEnv) (s : CaptureState) :
    StartResult × CaptureState × StartLog :=
  -- line 340: argument check, before anything else
  if argsInvalid args then
    (StartResult.typeError
      "Expected arguments: deviceUID (string), dataCallback (function)",
      s, emptyStartLog)
  -- line 348: already capturing
  else if s.g_isCapturing then
    (StartResult.jsError "Capture is already in progress.", s, emptyStartLog)
  -- line 352: TSF already exists
  else if s.g_tsf.isSome then
    (StartResult.jsError
      "ThreadSafeFunction seems to already exist. Stop capture first.",
      s, emptyStartLog)
  else
    startSession env s

/-- Outcomes of the external teardown calls made by `StopCapture`.  In the
source every one of these statuses is only logged (lines 557, 559, 563,
575); none of them changes control flow, so the fields are carried but
unused: `stopCapture` is literally independent of them. -/
structure StopEnv where
  stopOk : Bool
  uninitOk : Bool
  disposeOk : Bool
  releaseOk : Bool
deriving Repr, DecidableEq

/-- Teardown-accounting log for one `StopCapture` call: which teardown
steps were attempted (attempted, not necessarily succeeded). -/
structure StopLog where
  stopAttempts : Nat
  uninitAttempts : Nat
  callbackCleared : Nat
  disposeAttempts : Nat
  tsfReleases : Nat
deriving Repr, DecidableEq

/-- The all-zero stop log: no teardown step attempted. -/
def emptyStopLog : StopLog :=
  { stopAttempts := 0, uninitAttempts := 0, callbackCleared := 0,
    disposeAttempts := 0, tsfReleases := 0 }

/-- The log of a full teardown: every step attempted exactly once. -/
def fullTeardownLog : StopLog :=
  { stopAttempts := 1, uninitAttempts := 1, callbackCleared := 1,
    disposeAttempts := 1, tsfReleases := 1 }

/-- The log of a teardown in which only the unit was torn down (the TSF
was already null, lines 578-580). -/
def unitTeardownLog : StopLog :=
  { stopAttempts := 1, uninitAttempts := 1, callbackCleared := 1,
    disposeAttempts := 1, tsfReleases := 0 }

/-- The log of a call that only released the TSF (the unit was already
null, lines 566-568). -/
def tsfOnlyLog : StopLog :=
  { stopAttempts := 0, uninitAttempts := 0, callbackCleared := 0,
    disposeAttempts := 0, tsfReleases := 1 }

/-- `StopCapture` (lines 538-588), as an if-tree over the two null checks
the source performs sequentially.  Returns the Boolean handed back to the
caller, the global state after the call, and the teardown log.  Note the
`env` parameter is unused: failures of individual teardown steps are only
logged in the source (lines 557, 559, 563, 575) and never abort the
remaining steps or change the result. -/
def stopCapture (_env : StopEnv) (s : CaptureState) :
    Bool × CaptureState × StopLog :=
  -- line 542: not capturing
  if !s.g_isCapturing then
    -- lines 545-549: defensive release of a dangling TSF
    if s.g_tsf.isSome then
      (true, { s with g_tsf := none }, tsfOnlyLog)
    else
      (true, s, emptyStopLog)
  -- lines 554-565: stop, uninitialize, clear callback, dispose, null unit;
  -- lines 572-577: release TSF, null it;
  -- lines 584-585: reset device id and capturing flag; line 587: true
  else if s.g_audioUnit.isSome then
    if s.g_tsf.isSome then
      (true,
        { s with g_audioUnit := none, g_tsf := none, g_targetDeviceID := kAudioDeviceUnknown, g_isCapturing := false },
        fullTeardownLog)
    else
      (true,
        { s with g_audioUnit := none, g_targetDeviceID := kAudioDeviceUnknown, g_isCapturing := false },
        unitTeardownLog)
  else if s.g_tsf.isSome then
    (true,
      { s with g_tsf := none, g_targetDeviceID := kAudioDeviceUnknown, g_isCapturing := false },
      tsfOnlyLog)
  else
    (true,
      { s with g_targetDeviceID := kAudioDeviceUnknown, g_isCapturing := false },
      emptyStopLog)

/-- `ListDevices` (lines 86-163) only queries CoreAudio and builds the
result array; it reads none of the four globals and writes none of them,
so on the capture state it is the identity. -/
def listDevicesState (s : CaptureState) : CaptureState := s

/-- `bytesPerFrame` of the fixed input format (line 220):
2 channels * 2 bytes per int16 sample. -/
def bytesPerFrame : Nat := 4

/-- One frame of the converter loop body (lines 278-280):
`leftSample = raw[2i] / 32768.0f`, `rightSample = raw[2i+1] / 32768.0f`,
output `= (leftSample + rightSample) * 0.5f`.  Exact over `ℚ` for int16
inputs (see the header comment). -/
def convertFrame (l r : Int) : ℚ :=
  ((l : ℚ) / 32768 + (r : ℚ) / 32768) * (1 / 2)

/-- The converter loop of `AudioInputCallback` (lines 274-281): resize the
mono vector to `frameCount` and fill entry `i` from interleaved samples
`raw[2i]`, `raw[2i+1]`.  The rendered interleaved buffer is modelled as a
function from sample index to int16 value. -/
def monoConvert (raw : Nat → Int) (frameCount : Nat) : List ℚ :=
  (List.range frameCount).map fun i => convertFrame (raw (2 * i)) (raw (2 * i + 1))

/-- Outcomes of the external calls made by `AudioInputCallback`:
`allocOk` — `AllocateAudioBufferList` (line 223) succeeded;
`renderStatus` — the `OSStatus` of `AudioUnitRender` (line 243), 0 = `noErr`;
`renderedNumBuffers`, `renderedDataValid`, `renderedByteSize` — the shape
the buffer list reports after the render (lines 258, 263);
`resizeOk` — the mono `resize` (line 274) did not throw `bad_alloc`;
`enqueueOk` — `g_tsf.NonBlockingCall` (line 291) returned `napi_ok`. -/
structure RenderEnv where
  allocOk : Bool
  renderStatus : Int
  renderedNumBuffers : Nat
  renderedDataValid : Bool
  renderedByteSize : Nat
  resizeOk : Bool
  enqueueOk : Bool
deriving Repr, DecidableEq

/-- Accounting for the locally allocated `AudioBufferList`: how many times
the callback successfully acquired it and how many times it released it
(`DeallocateAudioBufferList`). -/
structure BufferLog where
  listAllocs : Nat
  listFrees : Nat
deriving Repr, DecidableEq

/-- No buffer list acquired, none released. -/
def emptyBufferLog : BufferLog := { listAllocs := 0, listFrees := 0 }

/-- The buffer list acquired exactly once and released exactly once. -/
def usedBufferLog : BufferLog := { listAllocs := 1, listFrees := 1 }

/-- `AudioInputCallback` (lines 195-333).  Returns the `OSStatus` handed
back to the audio subsystem, the frame delivered to the consumer
(`none` when nothing was enqueued or the enqueue failed), and the
buffer-list accounting. -/
def audioInputCallback (busNumber : Nat) (s : CaptureState) (env : RenderEnv)
    (raw : Nat → Int) (frames : Nat) : Int × Option (List ℚ) × BufferLog :=
  -- line 204: only process input bus 1
  if busNumber ≠ 1 then
    (0, none, emptyBufferLog)
  -- line 208: not capturing or TSF null
  else if !s.g_isCapturing || !s.g_tsf.isSome then
    (0, none, emptyBufferLog)
  -- line 223: allocate the local buffer list (on failure the helper has
  -- already freed anything it allocated internally, line 176)
  else if !env.allocOk then
    (-1, none, emptyBufferLog)
  -- line 251: AudioUnitRender failed: free the list, propagate the status
  else if env.renderStatus ≠ 0 then
    (env.renderStatus, none, usedBufferLog)
  -- line 258: post-render shape check: exactly 1 buffer with valid data
  else if env.renderedNumBuffers ≠ 1 || !env.renderedDataValid then
    (-1, none, usedBufferLog)
  -- line 263: rendered byte size strictly less than expected is an error
  else if env.renderedByteSize < frames * bytesPerFrame then
    (-1, none, usedBufferLog)
  -- line 282: bad_alloc while resizing the mono vector
  else if !env.resizeOk then
    (-1, none, usedBufferLog)
  -- lines 274-281 convert; line 291 enqueue; line 329 free; line 332 noErr
  else if env.enqueueOk then
    (0, some (monoConvert raw frames), usedBufferLog)
  else
    (0, none, usedBufferLog)

/-- The checks and actions of `AudioInputCallback`, named. -/
inductive CallbackAction
  | busNumberGuard
  | sessionChannelGuard
  | allocateBufferList
  | renderIntoBuffer
  | bufferShapeGuard
  | byteSizeGuard
  | convertFrames
  | enqueueDelivery
  | freeBufferList
deriving Repr, DecidableEq

/-- The order in which `AudioInputCallback` performs its checks and work,
transcribed from source order: the bus-number guard (line 204), the
session-state/channel guard (line 208), buffer-list allocation (line 223),
the render (line 243), the post-render shape guard (line 258), the byte
size guard (line 263), conversion (lines 274-281), enqueue (line 291), and
the release of the buffer list (line 329; on error paths the release
happens early, immediately before the return). -/
def audioInputCallbackOrder : List CallbackAction :=
  [CallbackAction.busNumberGuard, CallbackAction.sessionChannelGuard,
   CallbackAction.allocateBufferList, CallbackAction.renderIntoBuffer,
   CallbackAction.bufferShapeGuard, CallbackAction.byteSizeGuard,
   CallbackAction.convertFrames, CallbackAction.enqueueDelivery,
   CallbackAction.freeBufferList]

/-- The claimed state invariant: the hardware unit handle is non-null
exactly when the capturing flag is set. -/
def unitStateInvariant (s : CaptureState) : Prop :=
  s.g_audioUnit.isSome = s.g_isCapturing

/-- A well-typed argument list for `startCapture`: a device UID string and
a data callback function. -/
def goodArgs : List NapiValue := [NapiValue.str "dev-uid", NapiValue.func 0]

/-- An environment in which every external call of `startCapture`
succeeds; the device UID resolves to device id 5. -/
def goodEnv : StartEnv :=
  { deviceLookup := some 5, componentFound := true, instanceNew := true,
    enableInput := true, disableOutputOk := true, setDevice := true,
    setFormat := true, verifyFormatOk := true, setCallback := true,
    unitInitOk := true, tsfCreate := true, unitStart := true }

/-- The state produced by one fully successful `startCapture` from the
module-load state: a running session. -/
def sRunning : CaptureState :=
  (startCapture goodArgs goodEnv initialState).2.1

/-- A render environment in which everything succeeds but the rendered
buffer reports 8 bytes, twice the size expected for one frame. -/
def envOversize : RenderEnv :=
  { allocOk := true, renderStatus := 0, renderedNumBuffers := 1,
    renderedDataValid := true, renderedByteSize := 8, resizeOk := true,
    enqueueOk := true }

/-- An all-zero rendered sample buffer. -/
def rawZero : Nat → Int := fun _ => 0

/-- The spec's worked converter example as a rendered buffer:
`[L0=0, R0=0, L1=32767, R1=-32768]`. -/
def int16ExampleRaw : Nat → Int := fun j => [0, 0, 32767, -32768].getD j 0

/-- A stop environment in which every teardown call reports success. -/
def stopEnvAllOk : StopEnv :=
  { stopOk := true, uninitOk := true, disposeOk := true, releaseOk := true }

/-- A stop environment in which every teardown call reports failure. -/
def stopEnvAllFail : StopEnv :=
  { stopOk := false, uninitOk := false, disposeOk := false, releaseOk := false }

/-- The running state written out explicitly. -/
theorem sRunning_eq :
    sRunning = { g_isCapturing := true, g_audioUnit := some 1,
                 g_targetDeviceID := 5, g_tsf := some 1 } := by
  decide

/-- Claim C1: the Frame Converter step of the render callback produces an
output of length exactly `frameCount` whose `i`-th sample equals
`(raw[2i]/32768 + raw[2i+1]/32768) * 0.5`; on the input
`[L0=0, R0=0, L1=32767, R1=-32768]` with `frameCount = 2` it yields
`[0, ((32767/32768) + (-32768/32768))/2]`. -/
theorem frameConverter_correct (raw : Nat → Int) (n : Nat) :
    (monoConvert raw n).length = n
    ∧ (∀ i, i < n →
        (monoConvert raw n).getD i 0 =
          ((raw (2 * i) : ℚ) / 32768 + (raw (2 * i + 1) : ℚ) / 32768) * (1 / 2))
    ∧ monoConvert int16ExampleRaw 2 =
        [0, ((32767 : ℚ) / 32768 + (-32768 : ℚ) / 32768) * (1 / 2)] := by
  refine ⟨by simp [monoConvert], ?_, ?_⟩
  · intro i hi
    rw [monoConvert, List.getD_eq_getD_get?, List.get?_map, List.get?_range hi]
    simp [convertFrame]
  · norm_num [monoConvert, convertFrame, int16ExampleRaw, List.range_succ]

/-- Witness for C1 at `raw = int16ExampleRaw`, `n = 2`, `i = 1`. -/
theorem frameConverter_correct_witness :
    (monoConvert int16ExampleRaw 2).length = 2
    ∧ (monoConvert int16ExampleRaw 2).getD 1 0 =
        ((int16ExampleRaw 2 : ℚ) / 32768 + (int16ExampleRaw 3 : ℚ) / 32768) * (1 / 2) := by
  have h := frameConverter_correct int16ExampleRaw 2
  exact ⟨h.1, h.2.1 1 (by norm_num)⟩

/-- Claim C2, counterexample: the session-state/channel check is not the
very first action of `AudioInputCallback` — the input-bus-number check
(line 204) precedes it (line 208). -/
theorem sessionChannelGuard_not_first :
    audioInputCallbackOrder.head? ≠ some CallbackAction.sessionChannelGuard := by
  decide

/-- Claim C2 as amended: whenever the session is not capturing or no
delivery channel exists, the render callback returns success (`noErr`)
with no effect — nothing allocated, rendered, converted or enqueued —
and this session-state/channel check precedes all allocation, render,
conversion and enqueue work, being the first check after the
input-bus-number guard. -/
theorem callback_noEffect_when_not_running (busNumber : Nat) (s : CaptureState)
    (env : RenderEnv) (raw : Nat → Int) (frames : Nat)
    (h : s.g_isCapturing = false ∨ s.g_tsf = none) :
    audioInputCallback busNumber s env raw frames = (0, none, emptyBufferLog)
    ∧ audioInputCallbackOrder.take 2 =
        [CallbackAction.busNumberGuard, CallbackAction.sessionChannelGuard] := by
  constructor
  · unfold audioInputCallback
    rcases h with h | h <;> by_cases hb : busNumber = 1 <;> simp [hb, h]
  · decide

/-- Witness for C2 at bus 1, the module-load state. -/
theorem callback_noEffect_when_not_running_witness :
    audioInputCallback 1 initialState envOversize rawZero 1 = (0, none, emptyBufferLog)
    ∧ audioInputCallbackOrder.take 2 =
        [CallbackAction.busNumberGuard, CallbackAction.sessionChannelGuard] :=
  callback_noEffect_when_not_running 1 initialState envOversize rawZero 1 (Or.inl rfl)

/-- Claim C3, counterexample: the size validation is only a lower-bound
check (line 263 uses `<`).  A rendered buffer reporting 8 bytes where
4 were expected (one frame) differs from the expected size, yet the
invocation is not treated as an error: the callback returns `noErr` and
forwards the converted frame to the consumer. -/
theorem oversizeBuffer_not_discarded :
    envOversize.renderedByteSize ≠ 1 * bytesPerFrame
    ∧ audioInputCallback 1 sRunning envOversize rawZero 1 =
        (0, some [(0 : ℚ)], usedBufferLog) := by
  refine ⟨by decide, ?_⟩
  rw [sRunning_eq]
  norm_num [audioInputCallback, envOversize, monoConvert, convertFrame, rawZero,
    bytesPerFrame, List.range_succ]

/-- Claim C3 as amended: after a successful render the callback validates
that the rendered buffer reports at least the expected byte size
(`frameCount * 4`); whenever the reported size is smaller, that
invocation is a hard error: the callback returns −1, the entire frame is
discarded, nothing is forwarded to the consumer, and the scoped buffer
is still released (no crash, no leak). -/
theorem shortBuffer_discarded (s : CaptureState) (env : RenderEnv)
    (raw : Nat → Int) (frames : Nat)
    (hcap : s.g_isCapturing = true) (htsf : s.g_tsf.isSome = true)
    (halloc : env.allocOk = true) (hrender : env.renderStatus = 0)
    (hshape : env.renderedNumBuffers = 1) (hvalid : env.renderedDataValid = true)
    (hshort : env.renderedByteSize < frames * bytesPerFrame) :
    audioInputCallback 1 s env raw frames = (-1, none, usedBufferLog) := by
  unfold audioInputCallback
  simp [hcap, htsf, halloc, hrender, hshape, hvalid, hshort]

/-- Witness for C3 (amended) at a buffer reporting 0 of 4 expected bytes. -/
theorem shortBuffer_discarded_witness :
    audioInputCallback 1
      { g_isCapturing := true, g_audioUnit := some 1,
        g_targetDeviceID := 5, g_tsf := some 1 }
      { envOversize with renderedByteSize := 0 } rawZero 1 =
      (-1, none, usedBufferLog) :=
  shortBuffer_discarded _ _ rawZero 1 rfl rfl rfl rfl rfl rfl (by decide)

/-- Stage characterization: `startDelivery` either fully succeeds with
the expected state and log, or fails fully rolled back. -/
theorem startDelivery_cases (env : StartEnv) (s : CaptureState)
    (hcap : s.g_isCapturing = false) (htsf : s.g_tsf = none) :
    (env.deliveryOk = true ∧ startDelivery env s =
      (StartResult.ok, { s with g_tsf := some 1, g_isCapturing := true },
        logStartOk))
    ∨ (env.deliveryOk = false ∧ startFailed (startDelivery env s)) := by
  cases h1 : env.tsfCreate <;> cases h2 : env.unitStart <;>
    simp [startDelivery, StartEnv.deliveryOk, startFailed, balancedLog,
      logTsfFailed, logStartFailed, logStartOk, h1, h2, hcap, htsf]

/-- Stage characterization: `configureUnit` either fully succeeds with
the expected state and log, or fails fully rolled back. -/
theorem configureUnit_cases (env : StartEnv) (s : CaptureState)
    (hcap : s.g_isCapturing = false) (htsf : s.g_tsf = none) :
    (env.configOk = true ∧ configureUnit env s =
      (StartResult.ok, { s with g_tsf := some 1, g_isCapturing := true },
        logStartOk))
    ∨ (env.configOk = false ∧ startFailed (configureUnit env s)) := by
  cases h1 : env.enableInput <;> cases h2 : env.setDevice <;>
    cases h3 : env.setFormat <;> cases h4 : env.setCallback <;>
    cases h5 : env.unitInitOk <;>
    first
      | (simp [configureUnit, StartEnv.configOk, StartEnv.deliveryOk,
          startFailed, balancedLog, logUnitDisposed, h1, h2, h3, h4, h5,
          hcap, htsf]; done)
      | simpa [configureUnit, StartEnv.configOk, h1, h2, h3, h4, h5] using
          startDelivery_cases env s hcap htsf

/-- Stage characterization: `startSession` either fully succeeds with
the expected state and log, or fails fully rolled back. -/
theorem startSession_cases (env : StartEnv) (s : CaptureState)
    (hcap : s.g_isCapturing = false) (htsf : s.g_tsf = none)
    (hau : s.g_audioUnit = none) :
    (env.allOk = true ∧ startSession env s =
      (StartResult.ok,
        { s with g_targetDeviceID := env.deviceLookup.getD kAudioDeviceUnknown, g_audioUnit := some 1, g_tsf := some 1, g_isCapturing := true },
        logStartOk))
    ∨ (env.allOk = false ∧ startFailed (startSession env s)) := by
  rcases hdl : env.deviceLookup with _ | d
  · simp [startSession, StartEnv.allOk, hdl, startFailed, balancedLog,
      logLookupOnly, hcap, htsf, hau]
  · by_cases hd : d = kAudioDeviceUnknown
    · simp [startSession, StartEnv.allOk, hdl, hd, startFailed, balancedLog,
        logLookupOnly, hcap, htsf, hau]
    · cases hcf : env.componentFound
      · simp [startSession, StartEnv.allOk, hdl, hd, hcf, startFailed,
          balancedLog, logLookupOnly, hcap, htsf, hau]
      · cases hin : env.instanceNew
        · simp [startSession, StartEnv.allOk, hdl, hd, hcf, hin, startFailed,
            balancedLog, logLookupOnly, hcap, htsf, hau]
        · simpa [startSession, StartEnv.allOk, hdl, hd, hcf, hin] using
            configureUnit_cases env
              { s with g_targetDeviceID := d, g_audioUnit := some 1 }
              (by simp [hcap]) (by simp [htsf])

/-- Characterization of `startCapture` past its guards: with well-typed
arguments from a clean idle state, it either fully succeeds with the
expected state and log, or fails fully rolled back, according to
`StartEnv.allOk`. -/
theorem startCapture_cases (args : List NapiValue) (env : StartEnv)
    (s : CaptureState) (hargs : argsInvalid args = false)
    (hcap : s.g_isCapturing = false) (htsf : s.g_tsf = none)
    (hau : s.g_audioUnit = none) :
    (env.allOk = true ∧ startCapture args env s =
      (StartResult.ok,
        { s with g_targetDeviceID := env.deviceLookup.getD kAudioDeviceUnknown, g_audioUnit := some 1, g_tsf := some 1, g_isCapturing := true },
        logStartOk))
    ∨ (env.allOk = false ∧ startFailed (startCapture args env s)) := by
  simpa [startCapture, hargs, hcap, htsf] using
    startSession_cases env s hcap htsf hau

/-- Every `startCapture` call is either rejected by one of its three
guards, leaving the state untouched and the log empty, or the guards
pass and the call equals `startSession`. -/
theorem startCapture_guards (args : List NapiValue) (env : StartEnv)
    (s : CaptureState) :
    ((startCapture args env s).1 ≠ StartResult.ok
      ∧ (startCapture args env s).2.1 = s
      ∧ (startCapture args env s).2.2 = emptyStartLog)
    ∨ (argsInvalid args = false ∧ s.g_isCapturing = false ∧ s.g_tsf = none
      ∧ startCapture args env s = startSession env s) := by
  by_cases h1 : argsInvalid args = true
  · left; simp [startCapture, h1]
  · by_cases h2 : s.g_isCapturing = true
    · left; simp [startCapture, h1, h2]
    · by_cases h3 : s.g_tsf.isSome = true
      · left; simp [startCapture, h1, h2, h3]
      · right
        refine ⟨by simpa using h1, by simpa using h2, ?_,
          by simp [startCapture, h1, h2, h3]⟩
        simpa [Option.not_isSome_iff_eq_none] using h3

/-- Claim C4: every failure at a configuration step inside `StartCapture`
(device resolution, component lookup, unit creation, enabling input,
setting device, setting format, setting callback, unit init, delivery
channel creation, starting the unit) returns an error to the caller and
fully rolls back: no unit handle, no delivery channel, capturing flag
clear, and every acquired resource released (creations balance
disposals, inits balance uninits, channel creations balance releases). -/
theorem startCapture_failure_rollback (args : List NapiValue) (env : StartEnv)
    (s : CaptureState)
    (hargs : argsInvalid args = false) (hcap : s.g_isCapturing = false)
    (hau : s.g_audioUnit = none) (htsf : s.g_tsf = none)
    (hfail : env.allOk = false) :
    (startCapture args env s).1 ≠ StartResult.ok
    ∧ (startCapture args env s).2.1.g_audioUnit = none
    ∧ (startCapture args env s).2.1.g_tsf = none
    ∧ (startCapture args env s).2.1.g_isCapturing = false
    ∧ (startCapture args env s).2.2.unitsCreated =
        (startCapture args env s).2.2.unitsDisposed
    ∧ (startCapture args env s).2.2.unitsInited =
        (startCapture args env s).2.2.unitsUninited
    ∧ (startCapture args env s).2.2.tsfCreated =
        (startCapture args env s).2.2.tsfReleased := by
  rcases startCapture_cases args env s hargs hcap htsf hau with ⟨hok, _⟩ | ⟨_, hf⟩
  · rw [hfail] at hok; cases hok
  · simp only [startFailed, balancedLog] at hf
    exact ⟨hf.1, hf.2.1, hf.2.2.1, hf.2.2.2.1, hf.2.2.2.2.1,
      hf.2.2.2.2.2.1, hf.2.2.2.2.2.2⟩

/-- The all-good environment except that the final step
(`AudioOutputUnitStart`) fails. -/
def startEnvStartFails : StartEnv := { goodEnv with unitStart := false }

/-- Witness for C4: a start whose final step fails, from the module-load
state. -/
theorem startCapture_failure_rollback_witness :
    (startCapture goodArgs startEnvStartFails initialState).1 ≠ StartResult.ok
    ∧ (startCapture goodArgs startEnvStartFails initialState).2.1.g_audioUnit = none
    ∧ (startCapture goodArgs startEnvStartFails initialState).2.1.g_tsf = none
    ∧ (startCapture goodArgs startEnvStartFails initialState).2.1.g_isCapturing = false
    ∧ (startCapture goodArgs startEnvStartFails initialState).2.2.unitsCreated =
        (startCapture goodArgs startEnvStartFails initialState).2.2.unitsDisposed
    ∧ (startCapture goodArgs startEnvStartFails initialState).2.2.unitsInited =
        (startCapture goodArgs startEnvStartFails initialState).2.2.unitsUninited
    ∧ (startCapture goodArgs startEnvStartFails initialState).2.2.tsfCreated =
        (startCapture goodArgs startEnvStartFails initialState).2.2.tsfReleased :=
  startCapture_failure_rollback goodArgs startEnvStartFails
    initialState (by decide) rfl rfl rfl (by decide)

/-- Claim C5: `StartCapture` called while a session is active fails with
the already-capturing error before performing any hardware or channel
operation (the log stays all-zero) and leaves the state untouched. -/
theorem startCapture_alreadyCapturing (args : List NapiValue) (env : StartEnv)
    (s : CaptureState) (hargs : argsInvalid args = false)
    (hcap : s.g_isCapturing = true) :
    (startCapture args env s).1 =
      StartResult.jsError "Capture is already in progress."
    ∧ (startCapture args env s).2.1 = s
    ∧ (startCapture args env s).2.2 = emptyStartLog := by
  unfold startCapture
  simp [hargs, hcap]

/-- Witness for C5: a second start attempted on the running state. -/
theorem startCapture_alreadyCapturing_witness :
    (startCapture goodArgs goodEnv sRunning).1 =
      StartResult.jsError "Capture is already in progress."
    ∧ (startCapture goodArgs goodEnv sRunning).2.1 = sRunning
    ∧ (startCapture goodArgs goodEnv sRunning).2.2 = emptyStartLog :=
  startCapture_alreadyCapturing goodArgs goodEnv sRunning (by decide) (by decide)

/-- Claim C6: `StopCapture` always reports success; its behaviour is
independent of the outcomes of the individual teardown calls (a failing
step never aborts the remaining steps); called while idle (with no
delivery channel, as in every reachable idle state) it has no observable
side effect; called while capturing it attempts every teardown step and
leaves the module-load field values. -/
theorem stopCapture_idempotent_total (env : StopEnv) (s : CaptureState) :
    (stopCapture env s).1 = true
    ∧ (∀ env2, stopCapture env s = stopCapture env2 s)
    ∧ (s.g_isCapturing = false → s.g_tsf = none →
        (stopCapture env s).2.1 = s ∧ (stopCapture env s).2.2 = emptyStopLog)
    ∧ (s.g_isCapturing = true → s.g_audioUnit.isSome = true →
        s.g_tsf.isSome = true →
        (stopCapture env s).2.1 =
          { g_isCapturing := false, g_audioUnit := none,
            g_targetDeviceID := kAudioDeviceUnknown, g_tsf := none }
        ∧ (stopCapture env s).2.2 = fullTeardownLog) := by
  refine ⟨?_, fun env2 => rfl, ?_, ?_⟩
  · unfold stopCapture
    split_ifs <;> rfl
  · intro hcap htsf
    unfold stopCapture
    simp [hcap, htsf]
  · intro hcap hau htsf
    unfold stopCapture
    simp [hcap, hau, htsf, fullTeardownLog, emptyStopLog]

/-- Witness for C6: stop with all teardown calls failing, from the
running state, and stop from the module-load state. -/
theorem stopCapture_idempotent_total_witness :
    (stopCapture stopEnvAllFail sRunning).1 = true
    ∧ stopCapture stopEnvAllFail sRunning = stopCapture stopEnvAllOk sRunning
    ∧ ((stopCapture stopEnvAllOk initialState).2.1 = initialState
        ∧ (stopCapture stopEnvAllOk initialState).2.2 = emptyStopLog)
    ∧ ((stopCapture stopEnvAllFail sRunning).2.1 =
          { g_isCapturing := false, g_audioUnit := none,
            g_targetDeviceID := kAudioDeviceUnknown, g_tsf := none }
        ∧ (stopCapture stopEnvAllFail sRunning).2.2 = fullTeardownLog) := by
  have h1 := stopCapture_idempotent_total stopEnvAllFail sRunning
  have h2 := stopCapture_idempotent_total stopEnvAllOk initialState
  exact ⟨h1.1, h1.2.1 stopEnvAllOk, h2.2.2.1 rfl rfl,
    h1.2.2.2 (by decide) (by decide) (by decide)⟩

/-- Claim C7: for every int16 pair the converter output
`((left/32768) + (right/32768)) * 0.5` lies in `[-1, 1]` (and, the
arithmetic being exact — see the header comment — is never NaN). -/
theorem converter_range (l r : Int)
    (hl1 : -32768 ≤ l) (hl2 : l ≤ 32767) (hr1 : -32768 ≤ r) (hr2 : r ≤ 32767) :
    -1 ≤ convertFrame l r ∧ convertFrame l r ≤ 1 := by
  have e : convertFrame l r = ((l : ℚ) + (r : ℚ)) / 65536 := by
    unfold convertFrame; ring
  have h1 : (-32768 : ℚ) ≤ (l : ℚ) := by exact_mod_cast hl1
  have h2 : (l : ℚ) ≤ 32767 := by exact_mod_cast hl2
  have h3 : (-32768 : ℚ) ≤ (r : ℚ) := by exact_mod_cast hr1
  have h4 : (r : ℚ) ≤ 32767 := by exact_mod_cast hr2
  rw [e]
  constructor
  · rw [le_div_iff (by norm_num : (0 : ℚ) < 65536)]
    linarith
  · rw [div_le_iff (by norm_num : (0 : ℚ) < 65536)]
    linarith

/-- Witness for C7 at the extreme pair `(32767, -32768)`. -/
theorem converter_range_witness :
    -1 ≤ convertFrame 32767 (-32768) ∧ convertFrame 32767 (-32768) ≤ 1 :=
  converter_range 32767 (-32768) (by decide) (by decide) (by decide) (by decide)

/-- Claim C8: on every execution path of the render callback that
successfully acquires the local buffer list — render failure, shape or
size validation failure, mono-allocation failure, enqueue failure, and
the success path — the buffer list is released exactly once (one
acquisition, one release). -/
theorem bufferList_released_once (busNumber : Nat) (s : CaptureState)
    (env : RenderEnv) (raw : Nat → Int) (frames : Nat)
    (hbus : busNumber = 1) (hcap : s.g_isCapturing = true)
    (htsf : s.g_tsf.isSome = true) (halloc : env.allocOk = true) :
    (audioInputCallback busNumber s env raw frames).2.2 = usedBufferLog := by
  subst hbus
  unfold audioInputCallback
  simp only [hcap, htsf, halloc]
  split_ifs <;> simp_all [usedBufferLog]

/-- Witness for C8 on a failing-render invocation. -/
theorem bufferList_released_once_witness :
    (audioInputCallback 1
      { g_isCapturing := true, g_audioUnit := some 1,
        g_targetDeviceID := 5, g_tsf := some 1 }
      { envOversize with renderStatus := -10863 } rawZero 1).2.2 =
      usedBufferLog :=
  bufferList_released_once 1 _ _ rawZero 1 rfl rfl rfl rfl

/-- Claim C9, counterexample: a failed `StartCapture` does not always
leave the unit handle and capturing flag cleared — a start rejected with
the already-capturing error from the running state leaves both set. -/
theorem failedStart_leaves_handle_set :
    (startCapture goodArgs goodEnv sRunning).1 ≠ StartResult.ok
    ∧ (startCapture goodArgs goodEnv sRunning).2.1.g_audioUnit ≠ none
    ∧ (startCapture goodArgs goodEnv sRunning).2.1.g_isCapturing ≠ false := by
  decide

/-- Claim C9 as amended: at the entry and exit of every exported
operation the unit handle is non-null iff the capturing flag is set:
the invariant holds at module load, is preserved by `listDevices`,
`startCapture` and `stopCapture`; a successful `StartCapture`
establishes both (stated from a state satisfying the invariant); a `StartCapture` that fails from the idle state leaves
both cleared (one rejected because a session is already active leaves
the active session's handle and flag untouched); and `StopCapture`
clears both from any state satisfying the invariant. -/
theorem unitHandle_iff_capturing :
    unitStateInvariant initialState
    ∧ (∀ s, unitStateInvariant s → unitStateInvariant (listDevicesState s))
    ∧ (∀ args env s, unitStateInvariant s →
        unitStateInvariant (startCapture args env s).2.1)
    ∧ (∀ env s, unitStateInvariant s →
        unitStateInvariant (stopCapture env s).2.1)
    ∧ (∀ args env s, unitStateInvariant s →
        (startCapture args env s).1 = StartResult.ok →
        (startCapture args env s).2.1.g_audioUnit.isSome = true
        ∧ (startCapture args env s).2.1.g_isCapturing = true)
    ∧ (∀ args env s, s.g_isCapturing = false → s.g_audioUnit = none →
        (startCapture args env s).1 ≠ StartResult.ok →
        (startCapture args env s).2.1.g_audioUnit = none
        ∧ (startCapture args env s).2.1.g_isCapturing = false)
    ∧ (∀ env s, unitStateInvariant s →
        (stopCapture env s).2.1.g_audioUnit = none
        ∧ (stopCapture env s).2.1.g_isCapturing = false) := by
  refine ⟨rfl, fun s h => h, ?_, ?_, ?_, ?_, ?_⟩
  · intro args env s h
    rcases startCapture_guards args env s with ⟨_, hst, _⟩ | ⟨hargs, hcap, htsf, _⟩
    · rw [hst]; exact h
    · have hau : s.g_audioUnit = none := by
        rcases hA : s.g_audioUnit with _ | u
        · rfl
        · simp only [unitStateInvariant, hA, hcap] at h
          simp at h
      rcases startCapture_cases args env s hargs hcap htsf hau with ⟨_, hq⟩ | ⟨_, hf⟩
      · rw [hq]; rfl
      · simp only [startFailed] at hf
        simp [unitStateInvariant, hf.2.1, hf.2.2.2.1]
  · intro env s h
    unfold stopCapture
    split_ifs <;> simp_all [unitStateInvariant]
  · intro args env s h hok
    rcases startCapture_guards args env s with ⟨hne, _, _⟩ | ⟨hargs, hcap, htsf, _⟩
    · exact absurd hok hne
    · have hau : s.g_audioUnit = none := by
        rcases hA : s.g_audioUnit with _ | u
        · rfl
        · simp only [unitStateInvariant, hA, hcap] at h
          simp at h
      rcases startCapture_cases args env s hargs hcap htsf hau with ⟨_, hq⟩ | ⟨_, hf⟩
      · rw [hq]; exact ⟨rfl, rfl⟩
      · simp only [startFailed] at hf
        exact absurd hok hf.1
  · intro args env s hcap hau hne
    rcases startCapture_guards args env s with ⟨_, hst, _⟩ | ⟨hargs, _, htsf, _⟩
    · rw [hst]; exact ⟨hau, hcap⟩
    · rcases startCapture_cases args env s hargs hcap htsf hau with ⟨_, hq⟩ | ⟨_, hf⟩
      · rw [hq] at hne; exact absurd rfl hne
      · simp only [startFailed] at hf
        exact ⟨hf.2.1, hf.2.2.2.1⟩
  · intro env s h
    unfold stopCapture
    rcases hA : s.g_audioUnit with _ | u <;> split_ifs <;>
      simp_all [unitStateInvariant]

/-- Witness for C9 (amended): the invariant under a successful start, a
failed start, and a stop, at concrete inputs. -/
theorem unitHandle_iff_capturing_witness :
    unitStateInvariant (startCapture goodArgs goodEnv initialState).2.1
    ∧ ((startCapture goodArgs { goodEnv with tsfCreate := false }
          initialState).2.1.g_audioUnit = none
        ∧ (startCapture goodArgs { goodEnv with tsfCreate := false }
            initialState).2.1.g_isCapturing = false)
    ∧ ((stopCapture stopEnvAllOk sRunning).2.1.g_audioUnit = none
        ∧ (stopCapture stopEnvAllOk sRunning).2.1.g_isCapturing = false) := by
  have h := unitHandle_iff_capturing
  exact ⟨h.2.2.1 goodArgs goodEnv initialState rfl,
    h.2.2.2.2.2.1 goodArgs { goodEnv with tsfCreate := false } initialState
      rfl rfl (by decide),
    h.2.2.2.2.2.2 stopEnvAllOk sRunning (by rw [sRunning_eq]; rfl)⟩

/-- Claim C10: `StartCapture` invoked with fewer than two arguments, a
non-string first argument, or a non-function second argument raises a
type error and leaves the entire capture state — capturing flag, unit
handle, target device id, delivery channel — unchanged, performing no
hardware or channel operation. -/
theorem startCapture_badArgs (args : List NapiValue) (env : StartEnv)
    (s : CaptureState) (h : argsInvalid args = true) :
    (startCapture args env s).1 = StartResult.typeError
      "Expected arguments: deviceUID (string), dataCallback (function)"
    ∧ (startCapture args env s).2.1 = s
    ∧ (startCapture args env s).2.2 = emptyStartLog := by
  unfold startCapture
  simp [h]

/-- Witness for C10: a single-argument call against the running state. -/
theorem startCapture_badArgs_witness :
    (startCapture [NapiValue.str "x"] goodEnv sRunning).1 =
      StartResult.typeError
        "Expected arguments: deviceUID (string), dataCallback (function)"
    ∧ (startCapture [NapiValue.str "x"] goodEnv sRunning).2.1 = sRunning
    ∧ (startCapture [NapiValue.str "x"] goodEnv sRunning).2.2 = emptyStartLog :=
  startCapture_badArgs [NapiValue.str "x"] goodEnv sRunning (by decide)

end AudioCapture
